import Mathlib

/-!
Verification of the FleetCast backend (`src/backend/server.py`).

The backend exposes a dashboard summary and a per-ground-station view over
two relational tables, `telemetry` and `contact_windows`, and registers three
periodic background jobs at startup.  This file gives a shallow embedding of
the SQL queries and the endpoint bodies as pure Lean functions over explicit
table states, and proves the specified properties about them.

Tables are modelled as lists of rows (SQL bags); `now` stands for the value
of `UTC_TIMESTAMP()` at query time.  Store/query failures raised by
`pymysql` are modelled by a set of query names that raise, threaded through
the state; the embedding of each endpoint mirrors the straight-line
exception flow of the Python code (a raise aborts the rest of the body).
-/

namespace FleetCast

/-- A row of the `telemetry` table, as read by the queries in
`server.py`: satellite id, optional ground-station id (NULL when the
satellite has not contacted a station), battery level, temperature,
status string and event timestamp. -/
structure TelemetryRecord where
  satellite_id : Nat
  ground_station_id : Option String
  battery_level : Int
  temperature : Int
  status : String
  timestamp : Nat
deriving DecidableEq

/-- A row of the `contact_windows` table: satellite id, ground-station id,
assignment flag, and the window bounds. -/
structure ContactWindow where
  satellite_id : Nat
  ground_station_id : String
  assigned : Bool
  start_time : Nat
  end_time : Nat
deriving DecidableEq

/-- The dashboard summary dictionary returned by `get_dashboard_summary`. -/
structure DashboardSummary where
  totalSatellites : Nat
  activeContacts : Nat
  lowBattery : Nat
  errorState : Nat
  totalTelemetry : Nat
deriving DecidableEq

/-- One element of the `satellites` list returned by `get_station_data`:
the columns selected by the station query. -/
structure StationRow where
  satellite_id : Nat
  battery_level : Int
  temperature : Int
  status : String
  timestamp : Nat
deriving DecidableEq

/-- The dictionary returned by `get_station_data`. -/
structure StationResult where
  station_id : String
  satellites : List StationRow
deriving DecidableEq

/-! ## The dashboard SQL queries -/

/-- `SELECT COUNT(*) FROM telemetry`. -/
def total_telemetry (db : List TelemetryRecord) : Nat :=
  db.length

/-- `MAX(timestamp)` over the telemetry rows of one satellite (0 when the
satellite has no rows; the subquery below only evaluates it on satellites
that have at least one row). -/
def group_max (db : List TelemetryRecord) (s : Nat) : Nat :=
  ((db.filter (fun t => t.satellite_id == s)).map (fun t => t.timestamp)).foldr max 0

/-- The subquery
`SELECT satellite_id, MAX(timestamp) FROM telemetry GROUP BY satellite_id`:
one pair per distinct satellite id, carrying the maximum timestamp of that
satellite's rows. -/
def latestTimes (db : List TelemetryRecord) : List (Nat × Nat) :=
  ((db.map (fun t => t.satellite_id)).dedup).map (fun s => (s, group_max db s))

/-- The rows produced by
`telemetry t INNER JOIN (latest) ON t.satellite_id = latest.satellite_id AND
t.timestamp = latest.latest_time`: every telemetry row matched against the
per-satellite maximum-timestamp table (each row matches at most the one
subquery entry for its satellite id). -/
def joinLatest (db : List TelemetryRecord) : List TelemetryRecord :=
  db.flatMap (fun t =>
    ((latestTimes db).filter (fun p => p.1 == t.satellite_id && p.2 == t.timestamp)).map
      (fun _ => t))

/-- `SELECT COUNT(*) FROM telemetry t INNER JOIN (latest) ... WHERE
t.battery_level < 30`. -/
def low_battery (db : List TelemetryRecord) : Nat :=
  ((joinLatest db).filter (fun t => t.battery_level < 30)).length

/-- `SELECT COUNT(*) FROM telemetry t INNER JOIN (latest) ... WHERE
t.status = 'ERROR'`. -/
def error_state (db : List TelemetryRecord) : Nat :=
  ((joinLatest db).filter (fun t => t.status == "ERROR")).length

/-- `SELECT COUNT(DISTINCT satellite_id) FROM contact_windows WHERE
assigned = TRUE AND end_time > UTC_TIMESTAMP()`. -/
def active_contacts (cw : List ContactWindow) (now : Nat) : Nat :=
  (((cw.filter (fun w => w.assigned && now < w.end_time)).map
      (fun w => w.satellite_id)).dedup).length

/-! ## The station SQL query -/

/-- The joined rows of the station query's inner subquery:
`contact_windows cw JOIN telemetry t ON cw.satellite_id = t.satellite_id AND
cw.ground_station_id = t.ground_station_id WHERE cw.assigned = TRUE AND
cw.end_time > UTC_TIMESTAMP() AND cw.ground_station_id = %s`.  Each joined
row is the pair of `cw.satellite_id` (the partition key selected by the
query) and the matched telemetry row. -/
def station_joined (windows : List ContactWindow) (telemetry : List TelemetryRecord)
    (now : Nat) (station_id : String) : List (Nat × TelemetryRecord) :=
  (windows.filter
      (fun cw => cw.assigned && now < cw.end_time && cw.ground_station_id == station_id)).flatMap
    (fun cw =>
      (telemetry.filter
          (fun t =>
            cw.satellite_id == t.satellite_id &&
              some cw.ground_station_id == t.ground_station_id)).map
        (fun t => (cw.satellite_id, t)))

/-- A row of maximal `timestamp` in a list of joined rows, or `none` when the
list is empty.  This is the row that
`ROW_NUMBER() OVER (ORDER BY t.timestamp DESC)` ranks 1 inside one
partition; among rows with equal timestamps SQL leaves the choice
unspecified, and this embedding keeps the earliest such row in row order. -/
def argmaxTs : List (Nat × TelemetryRecord) → Option (Nat × TelemetryRecord)
  | [] => none
  | r :: rs =>
    match argmaxTs rs with
    | none => some r
    | some b => some (if r.2.timestamp < b.2.timestamp then b else r)

/-- `WHERE sub.rn = 1` applied to the ranking
`ROW_NUMBER() OVER (PARTITION BY cw.satellite_id ORDER BY t.timestamp DESC)`:
for each distinct partition key, the single rank-1 (maximum-timestamp) joined
row of that partition. -/
def rank_one (rows : List (Nat × TelemetryRecord)) : List (Nat × TelemetryRecord) :=
  ((rows.map (fun r => r.1)).dedup).filterMap
    (fun s => argmaxTs (rows.filter (fun r => r.1 == s)))

/-- The `station_data` list built from the fetched rows: select
`sub.satellite_id` (the window's satellite id) together with the telemetry
columns of the rank-1 row. -/
def station_rows (windows : List ContactWindow) (telemetry : List TelemetryRecord)
    (now : Nat) (station_id : String) : List StationRow :=
  (rank_one (station_joined windows telemetry now station_id)).map
    (fun r =>
      { satellite_id := r.1, battery_level := r.2.battery_level,
        temperature := r.2.temperature, status := r.2.status,
        timestamp := r.2.timestamp })

/-! ## Endpoint bodies with store failures -/

/-- Whether the connection opened by `pymysql.connect` at the start of an
endpoint body has been closed when the body finishes.  The Python code calls
`conn.close()` only on the straight-line success path (there is no
`try/finally` and no `with` block around the connection), so a query that
raises leaves the connection open (`leaked`); a failing `connect` never
acquires one (`notAcquired`). -/
inductive ConnStatus where
  | notAcquired
  | leaked
  | closed
deriving DecidableEq

/-- The store state an endpoint call runs against: the two tables, the value
of `UTC_TIMESTAMP()` during the call, and the set of operations
(`"connect"` or a query name) that raise a `pymysql` error during this
call. -/
structure DBState where
  telemetry : List TelemetryRecord
  contact_windows : List ContactWindow
  now : Nat
  failing : List String
deriving DecidableEq

/-- The names of the four dashboard sub-queries, in the order
`get_dashboard_summary` executes them. -/
def dashboard_query_names : List String :=
  ["total_telemetry", "low_battery", "error_state", "active_contacts"]

/-- The body of `GET /api/dashboard` (`get_dashboard_summary` in
`server.py`): connect, run the four sub-queries in order, close the
connection, and return the summary dictionary with the hard-coded
`totalSatellites = 100`.  A raising operation aborts the body at that point
(so `conn.close()` is not reached) and the call fails with that error. -/
def get_dashboard_summary (db : DBState) : Except String DashboardSummary × ConnStatus :=
  if "connect" ∈ db.failing then (Except.error "connect", ConnStatus.notAcquired)
  else if "total_telemetry" ∈ db.failing then (Except.error "total_telemetry", ConnStatus.leaked)
  else if "low_battery" ∈ db.failing then (Except.error "low_battery", ConnStatus.leaked)
  else if "error_state" ∈ db.failing then (Except.error "error_state", ConnStatus.leaked)
  else if "active_contacts" ∈ db.failing then (Except.error "active_contacts", ConnStatus.leaked)
  else
    (Except.ok
      { totalSatellites := 100,
        activeContacts := active_contacts db.contact_windows db.now,
        lowBattery := low_battery db.telemetry,
        errorState := error_state db.telemetry,
        totalTelemetry := total_telemetry db.telemetry },
      ConnStatus.closed)

/-- The body of `GET /api/station/{station_id}` (`get_station_data` in
`server.py`): connect, run the station query, close the connection, and
return the result dictionary.  As in the dashboard body, a raising operation
skips the `conn.close()` call. -/
def get_station_data (db : DBState) (station_id : String) :
    Except String StationResult × ConnStatus :=
  if "connect" ∈ db.failing then (Except.error "connect", ConnStatus.notAcquired)
  else if "station_latest" ∈ db.failing then (Except.error "station_latest", ConnStatus.leaked)
  else
    (Except.ok
      { station_id := station_id,
        satellites := station_rows db.contact_windows db.telemetry db.now station_id },
      ConnStatus.closed)

/-! ## Scheduler configuration -/

/-- The configuration `scheduler.add_job(fn, IntervalTrigger(seconds=n),
coalesce=..., max_instances=...)` passes for one job. -/
structure JobSpec where
  job_name : String
  interval_seconds : Nat
  coalesce : Bool
  max_instances : Nat
deriving DecidableEq

/-- The jobs registered by `start_jobs` at application startup, in
registration order. -/
def start_jobs : List JobSpec :=
  [{ job_name := "scheduled_simulation", interval_seconds := 10,
     coalesce := true, max_instances := 1 },
   { job_name := "scheduled_dashboard_job", interval_seconds := 15,
     coalesce := true, max_instances := 1 },
   { job_name := "scheduled_station_job", interval_seconds := 20,
     coalesce := true, max_instances := 1 }]

/-- The ground-station ids the 20-second job iterates over. -/
def ground_stations : List String :=
  ["GS-1", "GS-2", "GS-3"]

/-- The body of `scheduled_station_job`: call `get_station_data` once per
ground-station id, in order. -/
def scheduled_station_job (db : DBState) :
    List (Except String StationResult × ConnStatus) :=
  ground_stations.map (fun sid => get_station_data db sid)

/-! ## Specification-side definitions

These definitions follow the wording of the specification (not the SQL) and
are compared against the query embeddings above. -/

/-- Whether `t` is a maximum-timestamp row of its satellite in `db`: no row
of the same satellite has a strictly larger timestamp. -/
def isLatestRow (db : List TelemetryRecord) (t : TelemetryRecord) : Bool :=
  db.all (fun r => !(r.satellite_id == t.satellite_id) || r.timestamp ≤ t.timestamp)

/-- The distinct satellite ids appearing in the telemetry table. -/
def sats (db : List TelemetryRecord) : List Nat :=
  (db.map (fun t => t.satellite_id)).dedup

/-- Specification count for `lowBattery`: the number of satellites whose
maximum-timestamp record has `battery_level < 30`. -/
def latest_low_sats_spec (db : List TelemetryRecord) : Nat :=
  ((sats db).filter
      (fun s =>
        db.any (fun t => t.satellite_id == s && isLatestRow db t && t.battery_level < 30))).length

/-- Specification count for `errorState`: the number of satellites whose
maximum-timestamp record has status `ERROR`. -/
def latest_error_sats_spec (db : List TelemetryRecord) : Nat :=
  ((sats db).filter
      (fun s =>
        db.any (fun t => t.satellite_id == s && isLatestRow db t && t.status == "ERROR"))).length

/-- Specification count for `activeContacts`: the number of distinct
satellite ids having at least one contact window with `assigned = true` and
`end_time` strictly after `now`. -/
def active_contacts_spec (cw : List ContactWindow) (now : Nat) : Nat :=
  (((cw.map (fun w => w.satellite_id)).dedup).filter
      (fun s => cw.any (fun w => w.satellite_id == s && w.assigned && now < w.end_time))).length

/-! ## Concrete table states used as witnesses and counterexamples -/

/-- Shorthand for a telemetry row with no ground station and temperature 0. -/
def mkTel (s : Nat) (b : Int) (st : String) (ts : Nat) : TelemetryRecord :=
  { satellite_id := s, ground_station_id := none, battery_level := b,
    temperature := 0, status := st, timestamp := ts }

/-- The concrete latest-per-group scenario of the specification:
`[(sat=1, t=10, battery=20), (sat=1, t=20, battery=80), (sat=2, t=15, battery=10)]`. -/
def db_scenario : List TelemetryRecord :=
  [mkTel 1 20 "NOMINAL" 10, mkTel 1 80 "NOMINAL" 20, mkTel 2 10 "NOMINAL" 15]

/-- Two rows of the same satellite sharing the maximum timestamp, both with
battery below 30. -/
def db_tie_low : List TelemetryRecord :=
  [mkTel 1 20 "NOMINAL" 10, mkTel 1 25 "NOMINAL" 10]

/-- Two rows of the same satellite sharing the maximum timestamp, both in
status `ERROR`. -/
def db_tie_error : List TelemetryRecord :=
  [mkTel 1 50 "ERROR" 10, mkTel 1 60 "ERROR" 10]

/-- A store state whose `low_battery` sub-query raises. -/
def db_fail_low : DBState :=
  { telemetry := [], contact_windows := [], now := 0, failing := ["low_battery"] }

/-- A healthy store state with one active assigned window at `GS-1` and one
telemetry row for the satellite in contact. -/
def db_ok : DBState :=
  { telemetry :=
      [{ satellite_id := 1, ground_station_id := some "GS-1", battery_level := 50,
         temperature := 5, status := "NOMINAL", timestamp := 10 }],
    contact_windows :=
      [{ satellite_id := 1, ground_station_id := "GS-1", assigned := true,
         start_time := 0, end_time := 100 }],
    now := 0,
    failing := [] }

/-! ## Scheduler and endpoint claims -/

/-- Claim C9: at process startup the scheduler registers exactly three
periodic jobs — the simulation cycle every 10 seconds, the dashboard-summary
refresh every 15 seconds and the station-snapshot refresh every 20 seconds —
each configured with coalescing enabled and at most one concurrent instance,
and the 20-second job computes the station snapshot once per ground
station. -/
theorem claim_C9 :
    start_jobs =
      [{ job_name := "scheduled_simulation", interval_seconds := 10,
         coalesce := true, max_instances := 1 },
       { job_name := "scheduled_dashboard_job", interval_seconds := 15,
         coalesce := true, max_instances := 1 },
       { job_name := "scheduled_station_job", interval_seconds := 20,
         coalesce := true, max_instances := 1 }]
    ∧ ∀ db : DBState,
        scheduled_station_job db =
          [get_station_data db "GS-1", get_station_data db "GS-2",
           get_station_data db "GS-3"] :=
  ⟨rfl, fun _ => rfl⟩

/-- Claim C10: whenever the dashboard computation returns a summary, its
`totalSatellites` field is the constant 100, for every store state — the
field is never derived from the data. -/
theorem claim_C10 (db : DBState) (s : DashboardSummary)
    (h : (get_dashboard_summary db).1 = Except.ok s) : s.totalSatellites = 100 := by
  simp only [get_dashboard_summary] at h
  split_ifs at h
  simp_all
  rw [← h]

/-- Witness for claim C10 at the concrete healthy store `db_ok`. -/
theorem claim_C10_witness :
    ({ totalSatellites := 100, activeContacts := 1, lowBattery := 0,
       errorState := 0, totalTelemetry := 1 } : DashboardSummary).totalSatellites = 100 :=
  claim_C10 db_ok _ rfl

/-- Claim C7 (amended): the connection is released before the call returns
exactly on the executions that succeed; when a sub-query raises a store or
query error after the connection was acquired, the source has no
`try/finally`, so the connection is not closed by the call.  This holds for
both the dashboard and the station query. -/
theorem claim_C7_amended (db : DBState) (sid : String) :
    ((get_dashboard_summary db).2 = ConnStatus.closed ↔
      ∃ s, (get_dashboard_summary db).1 = Except.ok s)
    ∧ ((get_station_data db sid).2 = ConnStatus.closed ↔
      ∃ r, (get_station_data db sid).1 = Except.ok r) := by
  constructor
  · simp only [get_dashboard_summary]
    split_ifs <;> simp
  · simp only [get_station_data]
    split_ifs <;> simp

/-- Counterexample to claim C7 as stated: when the `low_battery` sub-query
raises, the dashboard call fails with that error but the connection acquired
at the start of the call is not released. -/
theorem claim_C7_counterexample :
    (get_dashboard_summary db_fail_low).1 = Except.error "low_battery"
    ∧ (get_dashboard_summary db_fail_low).2 = ConnStatus.leaked :=
  ⟨rfl, rfl⟩

/-- Witness for the amended claim C7 at the concrete healthy store. -/
theorem claim_C7_witness :
    (get_dashboard_summary db_ok).2 = ConnStatus.closed
    ∧ (get_station_data db_ok "GS-1").2 = ConnStatus.closed :=
  ⟨(claim_C7_amended db_ok "GS-1").1.mpr ⟨_, rfl⟩,
   (claim_C7_amended db_ok "GS-1").2.mpr ⟨_, rfl⟩⟩

/-- Claim C6: if the connection or any of the four dashboard sub-queries
fails, the whole dashboard computation fails with that error and returns no
summary; and any summary it does return is fully computed from the four
sub-queries (never partial or zero-filled). -/
theorem claim_C6 (db : DBState) :
    (("connect" ∈ db.failing ∨ ∃ q ∈ dashboard_query_names, q ∈ db.failing) →
      ∃ e, (get_dashboard_summary db).1 = Except.error e)
    ∧ ∀ s, (get_dashboard_summary db).1 = Except.ok s →
        s = { totalSatellites := 100,
              activeContacts := active_contacts db.contact_windows db.now,
              lowBattery := low_battery db.telemetry,
              errorState := error_state db.telemetry,
              totalTelemetry := total_telemetry db.telemetry } := by
  simp only [get_dashboard_summary]
  split_ifs with h1 h2 h3 h4 h5
  · exact ⟨fun _ => ⟨_, rfl⟩, fun s hs => by simp at hs⟩
  · exact ⟨fun _ => ⟨_, rfl⟩, fun s hs => by simp at hs⟩
  · exact ⟨fun _ => ⟨_, rfl⟩, fun s hs => by simp at hs⟩
  · exact ⟨fun _ => ⟨_, rfl⟩, fun s hs => by simp at hs⟩
  · exact ⟨fun _ => ⟨_, rfl⟩, fun s hs => by simp at hs⟩
  · refine ⟨fun hcon => ?_, fun s hs => ?_⟩
    · rcases hcon with hc | ⟨q, hq, hqf⟩
      · exact absurd hc h1
      · simp only [dashboard_query_names, List.mem_cons, List.not_mem_nil, or_false] at hq
        rcases hq with rfl | rfl | rfl | rfl
        exacts [absurd hqf h2, absurd hqf h3, absurd hqf h4, absurd hqf h5]
    · simp only [] at hs
      exact (Except.ok.inj hs).symm

/-- Witness for claim C6: a failing sub-query makes the whole call fail, and
the summary returned on the healthy store equals the fully computed one. -/
theorem claim_C6_witness :
    (∃ e, (get_dashboard_summary db_fail_low).1 = Except.error e)
    ∧ ({ totalSatellites := 100, activeContacts := 1, lowBattery := 0,
         errorState := 0, totalTelemetry := 1 } : DashboardSummary)
        = { totalSatellites := 100,
            activeContacts := active_contacts db_ok.contact_windows db_ok.now,
            lowBattery := low_battery db_ok.telemetry,
            errorState := error_state db_ok.telemetry,
            totalTelemetry := total_telemetry db_ok.telemetry } :=
  ⟨(claim_C6 db_fail_low).1 (Or.inr ⟨"low_battery", by decide, by decide⟩),
   (claim_C6 db_ok).2 _ rfl⟩

/-- Claim C5: a station id matching no contact window yields the successful
empty snapshot `{station_id := sid, satellites := []}` (with the connection
released), never an error, for every store state in which the store itself
is reachable. -/
theorem claim_C5 (db : DBState) (sid : String)
    (hnof : db.failing = [])
    (hunk : ∀ w ∈ db.contact_windows, w.ground_station_id ≠ sid) :
    get_station_data db sid =
      (Except.ok { station_id := sid, satellites := [] }, ConnStatus.closed) := by
  have hfilter :
      db.contact_windows.filter
        (fun cw => cw.assigned && db.now < cw.end_time && cw.ground_station_id == sid) = [] := by
    rw [List.filter_eq_nil_iff]
    intro w hw
    simp [hunk w hw]
  have hjoin : station_joined db.contact_windows db.telemetry db.now sid = [] := by
    simp [station_joined, hfilter]
  have hrows : station_rows db.contact_windows db.telemetry db.now sid = [] := by
    simp [station_rows, rank_one, hjoin]
  simp [get_station_data, hnof, hrows]

/-- Witness for claim C5: the unknown station id `does-not-exist` against the
concrete healthy store. -/
theorem claim_C5_witness :
    get_station_data db_ok "does-not-exist" =
      (Except.ok { station_id := "does-not-exist", satellites := [] }, ConnStatus.closed) :=
  claim_C5 db_ok "does-not-exist" rfl (by decide)

/-! ## Active contacts (claim C3) -/

/-- Claim C3: `activeContacts` equals the number of distinct satellite ids
having at least one contact window with `assigned = true` and `end_time`
strictly after the query time; windows that are unassigned or already over
are never counted.  In particular the specification's concrete scenario
(one assigned and one unassigned window ending 60 seconds from now) yields
1. -/
theorem claim_C3 :
    (∀ (cw : List ContactWindow) (now : Nat),
        active_contacts cw now = active_contacts_spec cw now)
    ∧ ∀ now : Nat,
        active_contacts
          [{ satellite_id := 1, ground_station_id := "GS-1", assigned := true,
             start_time := now, end_time := now + 60 },
           { satellite_id := 2, ground_station_id := "GS-1", assigned := false,
             start_time := now, end_time := now + 60 }] now = 1 := by
  constructor
  · intro cw now
    unfold active_contacts active_contacts_spec
    apply List.Perm.length_eq
    rw [List.perm_ext_iff_of_nodup (List.nodup_dedup _) (List.Nodup.filter _ (List.nodup_dedup _))]
    intro a
    simp only [List.mem_dedup, List.mem_filter, List.mem_map, List.any_eq_true,
      Bool.and_eq_true, beq_iff_eq, decide_eq_true_eq]
    aesop
  · intro now
    have h : now < now + 60 := by omega
    simp [active_contacts, h]

/-! ## Latest-per-group facts (claims C1 and C2) -/

/-- Every member of a list of naturals is bounded by its `foldr max 0`. -/
lemma le_foldr_max {l : List Nat} {a : Nat} (h : a ∈ l) : a ≤ l.foldr max 0 := by
  induction l with
  | nil => cases h
  | cons b l ih =>
    rw [List.foldr_cons]
    rcases List.mem_cons.1 h with rfl | h2
    · exact le_max_left _ _
    · exact le_trans (ih h2) (le_max_right _ _)

/-- `foldr max 0` of a list of naturals is bounded by any upper bound of its
members. -/
lemma foldr_max_le {l : List Nat} {c : Nat} (h : ∀ a ∈ l, a ≤ c) : l.foldr max 0 ≤ c := by
  induction l with
  | nil => exact Nat.zero_le c
  | cons b l ih =>
    rw [List.foldr_cons]
    exact max_le (h b (List.mem_cons_self b l)) (ih fun a ha => h a (List.mem_cons_of_mem b ha))

/-- For a row `t` of the table, having the group maximum as its timestamp is
the same as being a maximum-timestamp row of its satellite. -/
lemma group_max_eq_iff (db : List TelemetryRecord) (t : TelemetryRecord) (ht : t ∈ db) :
    group_max db t.satellite_id = t.timestamp ↔ isLatestRow db t = true := by
  constructor
  · intro h
    simp only [isLatestRow, List.all_eq_true]
    intro r hr
    by_cases hs : r.satellite_id = t.satellite_id
    · have hmem :
          r.timestamp ∈
            (db.filter (fun x => x.satellite_id == t.satellite_id)).map (fun x => x.timestamp) :=
        List.mem_map.2 ⟨r, List.mem_filter.2 ⟨hr, by simp [hs]⟩, rfl⟩
      have hle := le_foldr_max hmem
      rw [group_max] at h
      rw [h] at hle
      simp [hle]
    · simp [hs]
  · intro h
    have h1 : t.timestamp ≤ group_max db t.satellite_id :=
      le_foldr_max (List.mem_map.2 ⟨t, List.mem_filter.2 ⟨ht, by simp⟩, rfl⟩)
    have h2 : group_max db t.satellite_id ≤ t.timestamp := by
      apply foldr_max_le
      intro a ha
      rcases List.mem_map.1 ha with ⟨r, hr, rfl⟩
      rcases List.mem_filter.1 hr with ⟨hrdb, hrs⟩
      have hall := (List.all_eq_true.1 h) r hrdb
      simp only [beq_iff_eq] at hrs
      simp only [Bool.or_eq_true, Bool.not_eq_eq_eq_not, Bool.not_true, beq_eq_false_iff_ne,
        decide_eq_true_eq] at hall
      rcases hall with hne | hle
      · exact absurd hrs hne
      · exact hle
    exact le_antisymm h2 h1

/-- Filtering a duplicate-free list of keys for one key `a`, with an extra
condition `q`, yields `[a]` or `[]` according to `q a`. -/
lemma filter_key_eq_singleton {l : List Nat} (hnd : l.Nodup) {a : Nat} (ha : a ∈ l)
    (q : Nat → Bool) :
    l.filter (fun x => x == a && q x) = if q a then [a] else [] := by
  induction l with
  | nil => cases ha
  | cons b l ih =>
    rcases List.nodup_cons.1 hnd with ⟨hb, hl⟩
    rcases List.mem_cons.1 ha with rfl | ha2
    · have hrest : l.filter (fun x => x == a && q x) = [] := by
        rw [List.filter_eq_nil_iff]
        intro x hx
        simp only [Bool.and_eq_true, beq_iff_eq, not_and]
        rintro rfl
        exact absurd hx hb
      cases hq : q a <;> simp [List.filter_cons, hq, hrest]
    · have hba : b ≠ a := fun h => hb (h ▸ ha2)
      rw [List.filter_cons]
      have : (b == a && q b) = false := by simp [hba]
      rw [this]
      simp only [Bool.false_eq_true, if_false]
      exact ih hl ha2

/-- The inner-join step of the latest-per-satellite queries, evaluated at one
telemetry row: the row survives the join exactly when it is a
maximum-timestamp row of its satellite. -/
lemma join_inner_eq (db : List TelemetryRecord) (t : TelemetryRecord) (ht : t ∈ db) :
    ((latestTimes db).filter
        (fun p => p.1 == t.satellite_id && p.2 == t.timestamp)).map (fun _ => t)
      = if isLatestRow db t then [t] else [] := by
  have hsat : t.satellite_id ∈ (db.map (fun x => x.satellite_id)).dedup :=
    List.mem_dedup.2 (List.mem_map.2 ⟨t, ht, rfl⟩)
  have hfilter :
      (latestTimes db).filter (fun p => p.1 == t.satellite_id && p.2 == t.timestamp)
        = if (group_max db t.satellite_id == t.timestamp)
            then [(t.satellite_id, group_max db t.satellite_id)] else [] := by
    rw [latestTimes, List.filter_map]
    have hcomp :
        ((db.map (fun x => x.satellite_id)).dedup).filter
            ((fun p => p.1 == t.satellite_id && p.2 == t.timestamp) ∘ fun s => (s, group_max db s))
          = ((db.map (fun x => x.satellite_id)).dedup).filter
              (fun s => s == t.satellite_id && group_max db s == t.timestamp) := rfl
    rw [hcomp, filter_key_eq_singleton (List.nodup_dedup _) hsat
      (fun s => group_max db s == t.timestamp)]
    cases hq : (group_max db t.satellite_id == t.timestamp) <;> simp [hq]
  rw [hfilter]
  have hcond : (group_max db t.satellite_id == t.timestamp) = isLatestRow db t := by
    by_cases h : isLatestRow db t = true
    · simp [h, (group_max_eq_iff db t ht).2 h]
    · have hne : ¬ group_max db t.satellite_id = t.timestamp :=
        fun hc => h ((group_max_eq_iff db t ht).1 hc)
      simp only [Bool.not_eq_true] at h
      simp [h, hne]
  rw [hcond]
  cases h : isLatestRow db t <;> simp [h]

/-- The latest-per-satellite inner join keeps exactly the maximum-timestamp
rows of the table (each tied maximum row survives). -/
lemma joinLatest_eq_filter (db : List TelemetryRecord) :
    joinLatest db = db.filter (fun t => isLatestRow db t) := by
  rw [joinLatest]
  have aux : ∀ l : List TelemetryRecord, (∀ t ∈ l, t ∈ db) →
      (l.flatMap (fun t =>
        ((latestTimes db).filter
            (fun p => p.1 == t.satellite_id && p.2 == t.timestamp)).map (fun _ => t)))
        = l.filter (fun t => isLatestRow db t) := by
    intro l
    induction l with
    | nil => intro _; rfl
    | cons a l ih =>
      intro hsub
      rw [List.flatMap_cons, join_inner_eq db a (hsub a (List.mem_cons_self a l)),
        ih fun t htl => hsub t (List.mem_cons_of_mem a htl), List.filter_cons]
      cases h : isLatestRow db a <;> simp [h]
  exact aux db fun t ht => ht

/-- Counting the joined rows that pass a post-join predicate equals counting
the maximum-timestamp table rows passing it. -/
lemma joined_count_eq (db : List TelemetryRecord) (pred : TelemetryRecord → Bool) :
    ((joinLatest db).filter pred).length
      = (db.filter (fun t => isLatestRow db t && pred t)).length := by
  rw [joinLatest_eq_filter, List.filter_filter]
  apply congrArg List.length
  apply List.filter_congr
  intro t _
  cases isLatestRow db t <;> cases pred t <;> rfl

/-- `count` of a value in a mapped list is the number of preimages in the
original list. -/
lemma count_map_eq_countP {α β : Type} [DecidableEq β] (l : List α) (f : α → β) (b : β) :
    (l.map f).count b = l.countP (fun a => f a == b) := by
  induction l with
  | nil => rfl
  | cons a l ih =>
    rw [List.map_cons, List.count_cons, List.countP_cons, ih]

/-- When each satellite has at most one maximum-timestamp row, the number of
maximum-timestamp rows passing a predicate equals the number of satellites
whose maximum-timestamp row passes it. -/
lemma latest_rows_length_eq_sats_length (db : List TelemetryRecord)
    (pred : TelemetryRecord → Bool)
    (huniq : ∀ s ∈ db.map (fun t => t.satellite_id),
      (db.filter (fun t => t.satellite_id == s && isLatestRow db t)).length ≤ 1) :
    (db.filter (fun t => isLatestRow db t && pred t)).length
      = ((sats db).filter
          (fun s =>
            db.any (fun t => t.satellite_id == s && isLatestRow db t && pred t))).length := by
  classical
  have hMnodup :
      ((db.filter (fun t => isLatestRow db t && pred t)).map (fun t => t.satellite_id)).Nodup := by
    rw [List.nodup_iff_count_le_one]
    intro a
    rw [count_map_eq_countP, List.countP_eq_length_filter, List.filter_filter]
    by_cases ha : a ∈ db.map (fun t => t.satellite_id)
    · have hsplit :
          db.filter (fun t => (t.satellite_id == a) && (isLatestRow db t && pred t))
            = (db.filter (fun t => t.satellite_id == a && isLatestRow db t)).filter pred := by
        rw [List.filter_filter]
        apply List.filter_congr
        intro t _
        cases isLatestRow db t <;> cases pred t <;> cases t.satellite_id == a <;> rfl
      calc (db.filter (fun t => (t.satellite_id == a) && (isLatestRow db t && pred t))).length
          = ((db.filter (fun t => t.satellite_id == a && isLatestRow db t)).filter pred).length := by
            rw [hsplit]
        _ ≤ (db.filter (fun t => t.satellite_id == a && isLatestRow db t)).length :=
            List.length_filter_le _ _
        _ ≤ 1 := huniq a ha
    · have hempty :
          db.filter (fun t => (t.satellite_id == a) && (isLatestRow db t && pred t)) = [] := by
        rw [List.filter_eq_nil_iff]
        intro t htdb
        simp only [Bool.and_eq_true, beq_iff_eq, not_and]
        rintro rfl
        exact absurd (List.mem_map.2 ⟨t, htdb, rfl⟩) ha
      simp [hempty]
  have h4 :
      ((db.filter (fun t => isLatestRow db t && pred t)).map
          (fun t => t.satellite_id)).toFinset
        = ((sats db).filter
            (fun s =>
              db.any (fun t => t.satellite_id == s && isLatestRow db t && pred t))).toFinset := by
    ext a
    simp only [List.mem_toFinset, List.mem_map, List.mem_filter, sats, List.mem_dedup,
      List.any_eq_true, Bool.and_eq_true, beq_iff_eq]
    aesop
  calc (db.filter (fun t => isLatestRow db t && pred t)).length
      = ((db.filter (fun t => isLatestRow db t && pred t)).map
          (fun t => t.satellite_id)).length := (List.length_map _ _).symm
    _ = ((db.filter (fun t => isLatestRow db t && pred t)).map
          (fun t => t.satellite_id)).toFinset.card :=
        (List.toFinset_card_of_nodup hMnodup).symm
    _ = ((sats db).filter
          (fun s =>
            db.any (fun t => t.satellite_id == s && isLatestRow db t && pred t))).toFinset.card :=
        by rw [h4]
    _ = ((sats db).filter
          (fun s =>
            db.any (fun t => t.satellite_id == s && isLatestRow db t && pred t))).length :=
        List.toFinset_card_of_nodup (List.Nodup.filter _ (List.nodup_dedup _))

/-- Claim C1 (amended): on every table state in which each satellite's
maximum timestamp is attained by at most one row, `lowBattery` and
`errorState` equal the number of satellites whose maximum-timestamp record
satisfies the respective predicate; a satellite whose older record matched
but whose latest record does not is never counted.  (Without the uniqueness
hypothesis the SQL `COUNT(*)` counts each tied maximum row, see the
counterexample.) -/
theorem claim_C1_amended (db : List TelemetryRecord)
    (huniq : ∀ s ∈ db.map (fun t => t.satellite_id),
      (db.filter (fun t => t.satellite_id == s && isLatestRow db t)).length ≤ 1) :
    low_battery db = latest_low_sats_spec db ∧ error_state db = latest_error_sats_spec db := by
  constructor
  · rw [low_battery, joined_count_eq, latest_low_sats_spec]
    exact latest_rows_length_eq_sats_length db _ huniq
  · rw [error_state, joined_count_eq, latest_error_sats_spec]
    exact latest_rows_length_eq_sats_length db _ huniq

/-- Counterexample to claim C1 as stated: with two rows of satellite 1 tied
at the maximum timestamp and both below the battery threshold, the code
counts 2 while only one satellite has a low-battery latest record. -/
theorem claim_C1_counterexample :
    low_battery db_tie_low = 2 ∧ latest_low_sats_spec db_tie_low = 1 := by
  constructor <;> rfl

/-- Witness for the amended claim C1: the specification's concrete scenario
`[(sat=1, t=10, battery=20), (sat=1, t=20, battery=80), (sat=2, t=15, battery=10)]`
has `lowBattery = 1` (and no error states). -/
theorem claim_C1_witness :
    low_battery db_scenario = 1 ∧ error_state db_scenario = 0 := by
  have h := claim_C1_amended db_scenario (by decide)
  exact ⟨h.1.trans (by decide), h.2.trans (by decide)⟩

/-- Without any uniqueness assumption, the number of maximum-timestamp rows
passing a predicate is the sum, over the distinct satellites, of the number
of that satellite's maximum-timestamp rows passing the predicate. -/
lemma length_filter_eq_sum_fibers (db : List TelemetryRecord) (pred : TelemetryRecord → Bool) :
    (db.filter (fun t => isLatestRow db t && pred t)).length
      = ((sats db).map
          (fun s =>
            (db.filter
                (fun t => t.satellite_id == s && isLatestRow db t && pred t)).length)).sum := by
  classical
  have hcount : ∀ a : Nat,
      ((db.filter (fun t => isLatestRow db t && pred t)).map (fun t => t.satellite_id)).count a
        = (db.filter (fun t => t.satellite_id == a && isLatestRow db t && pred t)).length := by
    intro a
    rw [count_map_eq_countP, List.countP_eq_length_filter, List.filter_filter]
    apply congrArg List.length
    apply List.filter_congr
    intro t _
    cases isLatestRow db t <;> cases pred t <;> cases t.satellite_id == a <;> rfl
  have hsub :
      ((db.filter (fun t => isLatestRow db t && pred t)).map
          (fun t => t.satellite_id)).toFinset ⊆ (sats db).toFinset := by
    intro a ha
    simp only [List.mem_toFinset, List.mem_map, List.mem_filter] at ha
    rcases ha with ⟨t, ⟨htdb, -⟩, rfl⟩
    simp only [List.mem_toFinset, sats, List.mem_dedup]
    exact List.mem_map.2 ⟨t, htdb, rfl⟩
  have hzero : ∀ a ∈ (sats db).toFinset,
      a ∉ ((db.filter (fun t => isLatestRow db t && pred t)).map
            (fun t => t.satellite_id)).toFinset →
      (db.filter (fun t => t.satellite_id == a && isLatestRow db t && pred t)).length = 0 := by
    intro a _ haM
    rw [List.length_eq_zero, List.filter_eq_nil_iff]
    intro t htdb hcond
    apply haM
    simp only [Bool.and_eq_true, beq_iff_eq] at hcond
    simp only [List.mem_toFinset, List.mem_map, List.mem_filter]
    exact ⟨t, ⟨htdb, by simp [hcond.1.2, hcond.2]⟩, hcond.1.1⟩
  calc (db.filter (fun t => isLatestRow db t && pred t)).length
      = ((db.filter (fun t => isLatestRow db t && pred t)).map
          (fun t => t.satellite_id)).length := (List.length_map _ _).symm
    _ = ∑ a ∈ ((db.filter (fun t => isLatestRow db t && pred t)).map
            (fun t => t.satellite_id)).toFinset,
          ((db.filter (fun t => isLatestRow db t && pred t)).map
            (fun t => t.satellite_id)).count a :=
        (List.sum_toFinset_count_eq_length _).symm
    _ = ∑ a ∈ ((db.filter (fun t => isLatestRow db t && pred t)).map
            (fun t => t.satellite_id)).toFinset,
          (db.filter (fun t => t.satellite_id == a && isLatestRow db t && pred t)).length :=
        Finset.sum_congr rfl fun a _ => hcount a
    _ = ∑ a ∈ (sats db).toFinset,
          (db.filter (fun t => t.satellite_id == a && isLatestRow db t && pred t)).length :=
        Finset.sum_subset hsub hzero
    _ = ((sats db).map
          (fun s =>
            (db.filter
                (fun t => t.satellite_id == s && isLatestRow db t && pred t)).length)).sum :=
        List.sum_toFinset _ (List.nodup_dedup _)

/-- Claim C2 (amended): when several records share a satellite's maximum
timestamp, the `lowBattery`/`errorState` computations count every tied
maximum-timestamp row matching the predicate, so a satellite with k tied
matching rows contributes k to the count (not at most 1): each count equals
the sum over distinct satellites of the number of that satellite's
maximum-timestamp rows matching the predicate. -/
theorem claim_C2_amended (db : List TelemetryRecord) :
    low_battery db
      = ((sats db).map
          (fun s =>
            (db.filter
                (fun t =>
                  t.satellite_id == s && isLatestRow db t && t.battery_level < 30)).length)).sum
    ∧ error_state db
      = ((sats db).map
          (fun s =>
            (db.filter
                (fun t =>
                  t.satellite_id == s && isLatestRow db t && t.status == "ERROR")).length)).sum := by
  constructor
  · rw [low_battery, joined_count_eq]
    exact length_filter_eq_sum_fibers db _
  · rw [error_state, joined_count_eq]
    exact length_filter_eq_sum_fibers db _

/-- Counterexample to claim C2 as stated: two rows of the single satellite 1
tied at the maximum timestamp, both in status `ERROR`, make `errorState`
count 2 although only one satellite is present — the satellite contributes
more than 1. -/
theorem claim_C2_counterexample :
    error_state db_tie_error = 2
    ∧ ((db_tie_error.map fun t => t.satellite_id).dedup).length = 1 := by
  constructor <;> rfl

/-! ## Station view facts (claim C4) -/

/-- `argmaxTs` returns `none` exactly on the empty list. -/
lemma argmaxTs_eq_none {l : List (Nat × TelemetryRecord)} : argmaxTs l = none ↔ l = [] := by
  cases l with
  | nil => simp [argmaxTs]
  | cons r rs =>
    simp only [argmaxTs]
    cases argmaxTs rs <;> simp

/-- The row selected by `argmaxTs` belongs to the list. -/
lemma argmaxTs_mem {l : List (Nat × TelemetryRecord)} {r : Nat × TelemetryRecord}
    (h : argmaxTs l = some r) : r ∈ l := by
  induction l generalizing r with
  | nil => simp [argmaxTs] at h
  | cons a rs ih =>
    simp only [argmaxTs] at h
    cases hrec : argmaxTs rs with
    | none =>
      rw [hrec] at h
      simp only [Option.some.injEq] at h
      subst h
      exact List.mem_cons_self _ _
    | some b =>
      rw [hrec] at h
      simp only [Option.some.injEq] at h
      by_cases hc : a.2.timestamp < b.2.timestamp
      · rw [if_pos hc] at h
        subst h
        exact List.mem_cons_of_mem _ (ih hrec)
      · rw [if_neg hc] at h
        subst h
        exact List.mem_cons_self _ _

/-- The row selected by `argmaxTs` has the maximal timestamp of the list. -/
lemma argmaxTs_le {l : List (Nat × TelemetryRecord)} {r : Nat × TelemetryRecord}
    (h : argmaxTs l = some r) : ∀ x ∈ l, x.2.timestamp ≤ r.2.timestamp := by
  induction l generalizing r with
  | nil => simp [argmaxTs] at h
  | cons a rs ih =>
    simp only [argmaxTs] at h
    intro x hx
    cases hrec : argmaxTs rs with
    | none =>
      rw [hrec] at h
      simp only [Option.some.injEq] at h
      subst h
      have hnil : rs = [] := argmaxTs_eq_none.1 hrec
      subst hnil
      simp only [List.mem_singleton] at hx
      subst hx
      exact le_refl _
    | some b =>
      rw [hrec] at h
      simp only [Option.some.injEq] at h
      rcases List.mem_cons.1 hx with rfl | hx2
      · by_cases hc : x.2.timestamp < b.2.timestamp
        · rw [if_pos hc] at h
          subst h
          exact le_of_lt hc
        · rw [if_neg hc] at h
          subst h
          exact le_refl _
      · by_cases hc : a.2.timestamp < b.2.timestamp
        · rw [if_pos hc] at h
          subst h
          exact ih hrec x hx2
        · rw [if_neg hc] at h
          subst h
          exact le_trans (ih hrec x hx2) (le_of_not_lt hc)

/-- Membership in the station query's joined rows, unfolded to the defining
window and telemetry conditions. -/
lemma mem_station_joined {windows : List ContactWindow} {telemetry : List TelemetryRecord}
    {now : Nat} {sid : String} {s : Nat} {t : TelemetryRecord} :
    (s, t) ∈ station_joined windows telemetry now sid ↔
      (∃ cw ∈ windows, cw.assigned = true ∧ now < cw.end_time ∧ cw.ground_station_id = sid
          ∧ cw.satellite_id = s)
        ∧ t ∈ telemetry ∧ t.satellite_id = s ∧ t.ground_station_id = some sid := by
  simp only [station_joined, List.mem_flatMap, List.mem_filter, List.mem_map,
    Bool.and_eq_true, beq_iff_eq, decide_eq_true_eq, Prod.mk.injEq]
  constructor
  · rintro ⟨cw, ⟨hcw, ⟨ha, he⟩, hgs⟩, t0, ⟨ht0, hsat, hgsid⟩, hs, rfl⟩
    subst hs
    exact ⟨⟨cw, hcw, ha, he, hgs, rfl⟩, ht0, hsat.symm, by rw [← hgsid, hgs]⟩
  · rintro ⟨⟨cw, hcw, ha, he, hgs, hsat⟩, ht, hts, htg⟩
    exact ⟨cw, ⟨hcw, ⟨ha, he⟩, hgs⟩, t, ⟨ht, by rw [hsat, hts], by rw [htg, hgs]⟩, hsat, rfl⟩

/-- The partition keys surviving `rank_one` are exactly the distinct
partition keys of the joined rows. -/
lemma rank_one_map_fst (rows : List (Nat × TelemetryRecord)) :
    (rank_one rows).map (fun r => r.1) = (rows.map (fun r => r.1)).dedup := by
  rw [rank_one]
  have aux : ∀ l : List Nat, (∀ s ∈ l, s ∈ rows.map (fun r => r.1)) →
      (l.filterMap (fun s => argmaxTs (rows.filter (fun r => r.1 == s)))).map (fun r => r.1)
        = l := by
    intro l
    induction l with
    | nil => intro _; rfl
    | cons a l ih =>
      intro hsub
      have hne : rows.filter (fun r => r.1 == a) ≠ [] := by
        rcases List.mem_map.1 (hsub a (List.mem_cons_self a l)) with ⟨r, hr, hra⟩
        intro hnil
        have hmem : r ∈ rows.filter (fun x => x.1 == a) :=
          List.mem_filter.2 ⟨hr, by simp [hra]⟩
        rw [hnil] at hmem
        cases hmem
      cases hopt : argmaxTs (rows.filter (fun r => r.1 == a)) with
      | none => exact absurd (argmaxTs_eq_none.1 hopt) hne
      | some b =>
        have hb1 : b.1 = a := by
          rcases List.mem_filter.1 (argmaxTs_mem hopt) with ⟨-, h2⟩
          simpa using h2
        rw [List.filterMap_cons, hopt, List.map_cons, hb1,
          ih fun s hs => hsub s (List.mem_cons_of_mem a hs)]
  exact aux _ fun s hs => List.mem_dedup.1 hs

/-- A row selected by `rank_one` is one of the joined rows and has the
maximal timestamp within its partition. -/
lemma mem_rank_one {rows : List (Nat × TelemetryRecord)} {r : Nat × TelemetryRecord}
    (h : r ∈ rank_one rows) :
    r ∈ rows ∧ ∀ x ∈ rows, x.1 = r.1 → x.2.timestamp ≤ r.2.timestamp := by
  rw [rank_one] at h
  rcases List.mem_filterMap.1 h with ⟨s, hs, hopt⟩
  rcases List.mem_filter.1 (argmaxTs_mem hopt) with ⟨hrows, hr1⟩
  have hr1s : r.1 = s := by simpa using hr1
  refine ⟨hrows, ?_⟩
  intro x hx hx1
  exact argmaxTs_le hopt x (List.mem_filter.2 ⟨hx, by simp [hx1, hr1s]⟩)

/-- Every partition key of the joined rows yields a `rank_one` row. -/
lemma rank_one_exists_of_mem_keys {rows : List (Nat × TelemetryRecord)} {s : Nat}
    (hs : s ∈ rows.map (fun r => r.1)) : ∃ r ∈ rank_one rows, r.1 = s := by
  have hmem : s ∈ (rank_one rows).map (fun r => r.1) := by
    rw [rank_one_map_fst]
    exact List.mem_dedup.2 hs
  rcases List.mem_map.1 hmem with ⟨r, hr, hr1⟩
  exact ⟨r, hr, hr1⟩

/-- Claim C4: for every station id and store state, the station view
contains exactly one row per satellite that has an active, assigned contact
window with that station and at least one telemetry record joined on
`(satellite_id, ground_station_id)`; each returned row carries the fields of
a maximum-timestamp telemetry record of that satellite at that station (the
rank-1 row of the `ROW_NUMBER` ranking by timestamp descending). -/
theorem claim_C4 (db : DBState) (sid : String) :
    ((station_rows db.contact_windows db.telemetry db.now sid).map
        (fun r => r.satellite_id)).Nodup
    ∧ (∀ s : Nat,
        (∃ r ∈ station_rows db.contact_windows db.telemetry db.now sid,
            r.satellite_id = s) ↔
          ((∃ cw ∈ db.contact_windows, cw.assigned = true ∧ db.now < cw.end_time
              ∧ cw.ground_station_id = sid ∧ cw.satellite_id = s)
            ∧ ∃ t ∈ db.telemetry, t.satellite_id = s ∧ t.ground_station_id = some sid))
    ∧ (∀ r ∈ station_rows db.contact_windows db.telemetry db.now sid,
        ∃ t ∈ db.telemetry,
          t.satellite_id = r.satellite_id ∧ t.ground_station_id = some sid
            ∧ t.timestamp = r.timestamp ∧ t.battery_level = r.battery_level
            ∧ t.temperature = r.temperature ∧ t.status = r.status
            ∧ ∀ t2 ∈ db.telemetry,
                t2.satellite_id = r.satellite_id → t2.ground_station_id = some sid →
                  t2.timestamp ≤ r.timestamp) := by
  refine ⟨?_, ?_, ?_⟩
  · rw [station_rows, List.map_map]
    exact rank_one_map_fst (station_joined db.contact_windows db.telemetry db.now sid) ▸
      List.nodup_dedup _
  · intro s
    constructor
    · rintro ⟨r, hr, rfl⟩
      rw [station_rows] at hr
      rcases List.mem_map.1 hr with ⟨p, hp, rfl⟩
      have hpJ := (mem_rank_one hp).1
      have hchar := mem_station_joined.1 hpJ
      exact ⟨hchar.1, p.2, hchar.2.1, hchar.2.2.1, hchar.2.2.2⟩
    · rintro ⟨⟨cw, hcw, ha, he, hgs, hsat⟩, t, ht, hts, htg⟩
      have hJ : (s, t) ∈ station_joined db.contact_windows db.telemetry db.now sid :=
        mem_station_joined.2 ⟨⟨cw, hcw, ha, he, hgs, hsat⟩, ht, hts, htg⟩
      have hkey : s ∈ (station_joined db.contact_windows db.telemetry db.now sid).map
          (fun r => r.1) := List.mem_map.2 ⟨(s, t), hJ, rfl⟩
      rcases rank_one_exists_of_mem_keys hkey with ⟨p, hp, hp1⟩
      have hmem :
          ({ satellite_id := p.1, battery_level := p.2.battery_level,
             temperature := p.2.temperature, status := p.2.status,
             timestamp := p.2.timestamp } : StationRow)
            ∈ station_rows db.contact_windows db.telemetry db.now sid := by
        rw [station_rows]
        exact List.mem_map.2 ⟨p, hp, rfl⟩
      exact ⟨_, hmem, hp1⟩
  · intro r hr
    rw [station_rows] at hr
    rcases List.mem_map.1 hr with ⟨p, hp, rfl⟩
    rcases mem_rank_one hp with ⟨hpJ, hmax⟩
    have hchar := mem_station_joined.1 hpJ
    rcases hchar with ⟨⟨cw, hcw, ha, he, hgs, hsat⟩, hpt, hpts, hptg⟩
    refine ⟨p.2, hpt, hpts, hptg, rfl, rfl, rfl, rfl, ?_⟩
    intro t2 ht2 hts2 htg2
    have hJ2 : (p.1, t2) ∈ station_joined db.contact_windows db.telemetry db.now sid :=
      mem_station_joined.2 ⟨⟨cw, hcw, ha, he, hgs, hsat⟩, ht2, hts2, htg2⟩
    exact hmax (p.1, t2) hJ2 rfl

/-- Witness for claim C4: on the concrete healthy store, satellite 1 appears
in the `GS-1` station view. -/
theorem claim_C4_witness :
    ∃ r ∈ station_rows db_ok.contact_windows db_ok.telemetry db_ok.now "GS-1",
      r.satellite_id = 1 :=
  ((claim_C4 db_ok "GS-1").2.1 1).mpr (by decide)

end FleetCast
